import Mathlib

/-!
# mod_spdy output filter: `SpdyOutputFilter::Write`

A shallow embedding of `src/trunk/src/mod_spdy/apache/spdy_output_filter.cc`
(the helper `GetRequestStreamId` and the filter entry point `Write`), and the
properties of it that the specification states.

Layout of the embedding

* APR values the filter looks at (status codes, buckets, brigades, tables) are
  plain data; the APR routines used by the source are small total functions.
* `StringToInt64` (base library) is a parameter of `GetRequestStreamId` and of
  `Write`: a function from the header text to the success flag and the parsed
  `int64`.
* `context_` (class `OutputFilterContext`) is not part of the translated file.
  `Write` is therefore written against a record `ContextOps` of the three
  members it calls, and records every member call it makes.  A concrete
  instance, `specContext`, follows the specification's description.
* Logging (`LOG(DFATAL)`) is left out: in a release build it writes a log line
  and nothing else.  `DCHECK(ok)` is compiled out of a release build; its
  operand is kept in the result as the field `ok`, so that a failed check can
  be observed.
* Several invocations on one filter instance are `WriteAll`, which threads the
  context through the calls and concatenates what they pass downstream.
-/

namespace ModSpdy

/-! ## APR data -/

/-- APR status code (`apr_status_t`). -/
abbrev apr_status_t := Int

/-- The success status. -/
def APR_SUCCESS : apr_status_t := 0

/-- The general failure status, `APR_OS_START_ERROR + 14`. -/
def APR_EGENERAL : apr_status_t := 20014

/-- Octet strings (`char*` together with its `apr_size_t` length). -/
abbrev Bytes := List Nat

/-- A bucket of an input brigade, by what the filter can observe of it: whether it
is the end-of-stream sentinel, and what reading it yields. -/
inductive apr_bucket where
  | data (bytes : Bytes)
  | eos
  | flush
  | unreadable (status : apr_status_t)
  deriving DecidableEq, Repr

/-- A brigade is the sequence of its buckets, first to last (the ring without its
sentinel). -/
abbrev apr_bucket_brigade := List apr_bucket

/-- The test `APR_BUCKET_IS_EOS`. -/
def APR_BUCKET_IS_EOS : apr_bucket → Bool
  | .eos => true
  | _ => false

/-- Reading one bucket: status and the bytes read. Metadata buckets read as empty. -/
def apr_bucket_read : apr_bucket → apr_status_t × Bytes
  | .data bytes => (APR_SUCCESS, bytes)
  | .eos => (APR_SUCCESS, [])
  | .flush => (APR_SUCCESS, [])
  | .unreadable status => (status, [])

/-- The routine `apr_brigade_pflatten`: every bucket is read in order, the first
failing read aborts with its status (the out-parameters stay as they were, empty),
otherwise the result is the concatenation of all bytes read. -/
def apr_brigade_pflatten : apr_bucket_brigade → apr_status_t × Bytes
  | [] => (APR_SUCCESS, [])
  | b :: rest =>
    if (apr_bucket_read b).1 ≠ APR_SUCCESS then ((apr_bucket_read b).1, [])
    else if (apr_brigade_pflatten rest).1 ≠ APR_SUCCESS then
      ((apr_brigade_pflatten rest).1, [])
    else (APR_SUCCESS, (apr_bucket_read b).2 ++ (apr_brigade_pflatten rest).2)

/-- ASCII lower-casing of one character. -/
def asciiLower (c : Char) : Char :=
  if 65 ≤ c.toNat ∧ c.toNat ≤ 90 then Char.ofNat (c.toNat + 32) else c

/-- Key comparison of APR tables (`strcasecmp` equal to zero). -/
def keyEq (a b : String) : Bool :=
  a.data.map asciiLower == b.data.map asciiLower

/-- An APR table: its entries in insertion order. -/
abbrev apr_table_t := List (String × String)

/-- The lookup `apr_table_get`: value of the first entry whose key matches,
ignoring ASCII case; `none` stands for `NULL`. -/
def apr_table_get : apr_table_t → String → Option String
  | [], _ => none
  | (k, v) :: rest, key => if keyEq k key then some v else apr_table_get rest key

/-- Response header block handed to the framer. -/
abbrev SpdyHeaderBlock := List (String × String)

/-- The fields of `request_rec` the filter (and its header populator) uses. -/
structure request_rec where
  headers_in : apr_table_t
  sent_bodyct : Int
  headers_out : SpdyHeaderBlock
  deriving DecidableEq, Repr

/-! ## Stream identifiers -/

/-- The type `spdy::SpdyStreamId` is an unsigned 32-bit integer; values are kept as
naturals below `2 ^ 32`. -/
abbrev SpdyStreamId := Nat

/-- The conversion `static_cast<spdy::SpdyStreamId>(id)` of an `int64`. -/
def static_cast_SpdyStreamId (id : Int) : SpdyStreamId :=
  (id % 4294967296).toNat

/-- The helper `GetRequestStreamId(request, out)`. The second argument is the value
of `*out` on entry; the result is the returned flag and the value of `*out` on
exit. -/
def GetRequestStreamId (StringToInt64 : String → Bool × Int) (request : request_rec)
    (out : SpdyStreamId) : Bool × SpdyStreamId :=
  match apr_table_get request.headers_in "x-spdy-stream-id" with
  | none => (false, out)
  | some value =>
    if (StringToInt64 value).1 then
      (true, static_cast_SpdyStreamId (StringToInt64 value).2)
    else (false, out)

/-! ## A concrete `StringToInt64`

Used to evaluate the model on concrete requests: an optional sign followed by
decimal digits, accepted when the value fits in an `int64`. -/

/-- Value of a non-empty all-digit character list, most significant first. -/
def digitsValue : List Char → Nat → Option Nat
  | [], acc => some acc
  | c :: rest, acc =>
    if 48 ≤ c.toNat ∧ c.toNat ≤ 57 then digitsValue rest (acc * 10 + (c.toNat - 48))
    else none

/-- Signed decimal literal to integer, without range check. -/
def decimalValue : List Char → Option Int
  | [] => none
  | '-' :: [] => none
  | '+' :: [] => none
  | '-' :: rest => (digitsValue rest 0).map (fun n => - (n : Int))
  | '+' :: rest => (digitsValue rest 0).map (fun n => (n : Int))
  | cs => (digitsValue cs 0).map (fun n => (n : Int))

/-- Decimal `StringToInt64`: success flag and value (zero on failure). -/
def decimalStringToInt64 (s : String) : Bool × Int :=
  match decimalValue s.data with
  | some n =>
    if -9223372036854775808 ≤ n ∧ n ≤ 9223372036854775807 then (true, n) else (false, 0)
  | none => (false, 0)

/-! ## Output side -/

/-- A protocol frame written through the output stream. -/
inductive SpdyFrame where
  | headers (stream_id : SpdyStreamId) (block : SpdyHeaderBlock) (fin : Bool)
  | data (stream_id : SpdyStreamId) (bytes : Bytes) (fin : Bool)
  deriving DecidableEq, Repr

/-- An element of the output brigade: a frame written by the context, or the
end-of-stream bucket appended by `Write`. -/
inductive OutBucket where
  | frame (f : SpdyFrame)
  | eos
  deriving DecidableEq, Repr

/-- Header source built by `Write` from the request (`ResponseHeaderPopulator`). -/
structure ResponseHeaderPopulator where
  request : request_rec
  deriving DecidableEq, Repr

/-- What one member call on the context yields: the returned flag, the context
afterwards, and the frames it wrote to the output stream. -/
structure SendResult (σ : Type) where
  ok : Bool
  ctx : σ
  written : List SpdyFrame

/-- The members of `OutputFilterContext` that `Write` calls, over a context state
type `σ`. -/
structure ContextOps (σ : Type) where
  headers_have_been_sent : σ → Bool
  SendData : σ → SpdyStreamId → Bytes → Bool → SendResult σ
  SendHeaders : σ → SpdyStreamId → ResponseHeaderPopulator → Bool → SendResult σ

/-- A member call made by `Write` on the context, with its arguments. -/
inductive ContextCall where
  | SendData (stream_id : SpdyStreamId) (input_data : Bytes) (is_end_of_stream : Bool)
  | SendHeaders (stream_id : SpdyStreamId) (populator : ResponseHeaderPopulator)
      (is_end_of_stream : Bool)
  deriving DecidableEq, Repr

/-- Everything one invocation of `Write` reads from its surroundings: the request
of the filter, the input brigade, the status of the `LocalPool` it creates, and
the status `ap_pass_brigade` will return. -/
structure Invocation where
  request : request_rec
  input_brigade : apr_bucket_brigade
  local_status : apr_status_t
  pass_status : apr_status_t
  deriving DecidableEq, Repr

/-- Outcome of one invocation of `Write`.

* `status`: the returned `apr_status_t`;
* `passed`: the output brigade handed to `ap_pass_brigade`, `none` when `Write`
  returned before reaching it;
* `ok`: the local `ok` on return (the operand of `DCHECK(ok)`);
* `calls`: the member calls made on the context, in order;
* `ctx`: the context afterwards. -/
structure WriteResult (σ : Type) where
  status : apr_status_t
  passed : Option (List OutBucket)
  ok : Bool
  calls : List ContextCall
  ctx : σ

/-- What an invocation sent downstream (nothing when it returned early). -/
def WriteResult.emitted {σ : Type} (r : WriteResult σ) : List OutBucket :=
  r.passed.getD []

/-- The loop at the head of `Write`: is there an end-of-stream bucket in the
brigade. -/
def Write.is_end_of_stream : apr_bucket_brigade → Bool
  | [] => false
  | bucket :: rest =>
    if APR_BUCKET_IS_EOS bucket then true else Write.is_end_of_stream rest

/-- The same loop with its iterations counted: `fuel` bounds the number of loop
tests, `none` means the bound was reached before the loop was left. -/
def Write.scan_loop : Nat → apr_bucket_brigade → Option Bool
  | 0, _ => none
  | _ + 1, [] => some false
  | fuel + 1, bucket :: rest =>
    if APR_BUCKET_IS_EOS bucket then some true else Write.scan_loop fuel rest

/-- An error return of `Write` before anything is sent. -/
def Write.fail {σ : Type} (context_ : σ) (status : apr_status_t) : WriteResult σ :=
  { status := status, passed := none, ok := true, calls := [], ctx := context_ }

/-- The tail of `Write`: append the end-of-stream bucket when required and pass the
output brigade on. -/
def Write.finish {σ : Type} (inv : Invocation) (is_end_of_stream : Bool)
    (sent : SendResult σ) (calls : List ContextCall) : WriteResult σ :=
  { status := inv.pass_status
    passed := some (sent.written.map OutBucket.frame ++
      (if is_end_of_stream then [OutBucket.eos] else []))
    ok := sent.ok
    calls := calls
    ctx := sent.ctx }

/-- The method `SpdyOutputFilter::Write(filter, input_brigade)`. -/
def Write {σ : Type} (StringToInt64 : String → Bool × Int) (ops : ContextOps σ)
    (context_ : σ) (inv : Invocation) : WriteResult σ :=
  let is_end_of_stream := Write.is_end_of_stream inv.input_brigade
  let request := inv.request
  if request.sent_bodyct ≠ 0 then
    if inv.local_status ≠ APR_SUCCESS then Write.fail context_ inv.local_status
    else
      let flat := apr_brigade_pflatten inv.input_brigade
      if flat.1 ≠ APR_SUCCESS then Write.fail context_ flat.1
      else
        let got := GetRequestStreamId StringToInt64 request 0
        if !got.1 then Write.fail context_ APR_EGENERAL
        else
          Write.finish inv is_end_of_stream
            (ops.SendData context_ got.2 flat.2 is_end_of_stream)
            [ContextCall.SendData got.2 flat.2 is_end_of_stream]
  else if !ops.headers_have_been_sent context_ then
    let got := GetRequestStreamId StringToInt64 request 0
    if !got.1 then Write.fail context_ APR_EGENERAL
    else
      let populator : ResponseHeaderPopulator := { request := request }
      Write.finish inv is_end_of_stream
        (ops.SendHeaders context_ got.2 populator is_end_of_stream)
        [ContextCall.SendHeaders got.2 populator is_end_of_stream]
  else
    Write.finish inv is_end_of_stream
      { ok := true, ctx := context_, written := [] } []

/-- A sequence of invocations on one filter instance: the concatenated downstream
output and the final context. -/
def WriteAll {σ : Type} (StringToInt64 : String → Bool × Int) (ops : ContextOps σ) :
    σ → List Invocation → List OutBucket × σ
  | context_, [] => ([], context_)
  | context_, inv :: rest =>
    ((Write StringToInt64 ops context_ inv).emitted ++
        (WriteAll StringToInt64 ops (Write StringToInt64 ops context_ inv).ctx rest).1,
      (WriteAll StringToInt64 ops (Write StringToInt64 ops context_ inv).ctx rest).2)

/-! ## The context, from the specification -/

/-- Modelled from the spec: the state of class `OutputFilterContext`
(`mod_spdy/common/output_filter_context.h`, not among the translated sources) is
the flag `headers_sent`, "true once a HEADERS frame has been emitted for this
stream". -/
structure OutputFilterContext where
  headers_have_been_sent_ : Bool
  deriving DecidableEq, Repr

/-- Modelled from the spec: a freshly constructed `OutputFilterContext` has not sent
headers. -/
def OutputFilterContext.fresh : OutputFilterContext :=
  { headers_have_been_sent_ := false }

/-- Modelled from the spec: `ResponseHeaderPopulator::Populate`
(`mod_spdy/apache/response_header_populator.h`, not among the translated sources),
the header source that "yields the complete header set for the response". -/
def ResponseHeaderPopulator.Populate (p : ResponseHeaderPopulator) : SpdyHeaderBlock :=
  p.request.headers_out

/-- Modelled from the spec: `OutputFilterContext::headers_have_been_sent`, the
accessor of the flag. -/
def OutputFilterContext.headers_have_been_sent (c : OutputFilterContext) : Bool :=
  c.headers_have_been_sent_

/-- Modelled from the spec: `OutputFilterContext::SendHeaders`. It queries the
header source, emits exactly one HEADERS frame tagged with the stream id whose FIN
flag is its end-of-stream argument, and sets `headers_sent`. -/
def OutputFilterContext.SendHeaders (_c : OutputFilterContext) (stream_id : SpdyStreamId)
    (populator : ResponseHeaderPopulator) (is_end_of_stream : Bool) :
    SendResult OutputFilterContext :=
  { ok := true
    ctx := { headers_have_been_sent_ := true }
    written := [SpdyFrame.headers stream_id populator.Populate is_end_of_stream] }

/-- Modelled from the spec: `OutputFilterContext::SendData`. With headers sent it
emits exactly one DATA frame carrying the bytes, tagged with the stream id, FIN
flag as given. A body-phase delivery while `headers_sent` is false is a
protocol-invariant violation: no frame is emitted and failure is reported to the
caller. -/
def OutputFilterContext.SendData (c : OutputFilterContext) (stream_id : SpdyStreamId)
    (input_data : Bytes) (is_end_of_stream : Bool) : SendResult OutputFilterContext :=
  if c.headers_have_been_sent_ then
    { ok := true, ctx := c, written := [SpdyFrame.data stream_id input_data is_end_of_stream] }
  else
    { ok := false, ctx := c, written := [] }

/-- Modelled from the spec: the `OutputFilterContext` members as a `ContextOps`. -/
def specContext : ContextOps OutputFilterContext :=
  { headers_have_been_sent := OutputFilterContext.headers_have_been_sent
    SendData := OutputFilterContext.SendData
    SendHeaders := OutputFilterContext.SendHeaders }

/-! ## Observations on output -/

/-- Is this output element a HEADERS frame. -/
def OutBucket.isHeaders : OutBucket → Bool
  | .frame (.headers _ _ _) => true
  | _ => false

/-- Is this output element a DATA frame. -/
def OutBucket.isData : OutBucket → Bool
  | .frame (.data _ _ _) => true
  | _ => false

/-! ## Sample requests and invocations -/

/-- A request carrying stream id 7, with the given body counter. -/
def sampleRequest (sent_bodyct : Int) : request_rec :=
  { headers_in := [("host", "example.org"), ("x-spdy-stream-id", "7")]
    sent_bodyct := sent_bodyct
    headers_out := [("status", "200 OK"), ("content-type", "text/plain")] }

/-- A request without the stream-id header, with the given body counter. -/
def sampleRequestWithoutId (sent_bodyct : Int) : request_rec :=
  { headers_in := [("host", "example.org")]
    sent_bodyct := sent_bodyct
    headers_out := [("status", "200 OK")] }

/-- A final body delivery: the bytes of "abc" followed by the end-of-stream
bucket. -/
def sampleBodyInvocation : Invocation :=
  { request := sampleRequest 1
    input_brigade := [apr_bucket.data [97, 98, 99], apr_bucket.eos]
    local_status := APR_SUCCESS
    pass_status := APR_SUCCESS }

/-- The same final body delivery in a call whose local pool cannot be created
(status 12, out of memory). -/
def samplePoolFailureInvocation : Invocation :=
  { request := sampleRequest 1
    input_brigade := [apr_bucket.data [97, 98, 99], apr_bucket.eos]
    local_status := 12
    pass_status := APR_SUCCESS }

/-- A body delivery whose second bucket cannot be read (status 70014, end of
file). -/
def sampleUnreadableInvocation : Invocation :=
  { request := sampleRequest 1
    input_brigade := [apr_bucket.data [97], apr_bucket.unreadable 70014, apr_bucket.eos]
    local_status := APR_SUCCESS
    pass_status := APR_SUCCESS }

/-- A request whose stream-id header holds the given text. -/
def sampleRequestWithId (text : String) : request_rec :=
  { headers_in := [("X-SPDY-Stream-Id", text)]
    sent_bodyct := 0
    headers_out := [] }

/-- A pass-through delivery that only carries the end-of-stream bucket, on a
request whose stream id cannot be resolved. -/
def sampleEosInvocationWithoutId : Invocation :=
  { request := sampleRequestWithoutId 0
    input_brigade := [apr_bucket.eos]
    local_status := APR_SUCCESS
    pass_status := APR_SUCCESS }

/-- A body delivery on a request whose stream id cannot be resolved. -/
def sampleBodyInvocationWithoutId : Invocation :=
  { request := sampleRequestWithoutId 1
    input_brigade := [apr_bucket.data [97, 98, 99]]
    local_status := APR_SUCCESS
    pass_status := APR_SUCCESS }

/-- A header-phase delivery whose brigade holds one byte and the end-of-stream
bucket. -/
def sampleHeaderInvocationWithData : Invocation :=
  { request := sampleRequest 0
    input_brigade := [apr_bucket.data [120], apr_bucket.eos]
    local_status := APR_SUCCESS
    pass_status := APR_SUCCESS }

/-- A header-phase delivery with an empty brigade. -/
def sampleHeaderInvocation : Invocation :=
  { request := sampleRequest 0
    input_brigade := []
    local_status := APR_SUCCESS
    pass_status := APR_SUCCESS }

/-- A body delivery of "abc" that is not the last one. -/
def sampleChunkInvocation : Invocation :=
  { request := sampleRequest 1
    input_brigade := [apr_bucket.data [97, 98, 99]]
    local_status := APR_SUCCESS
    pass_status := APR_SUCCESS }

/-- The final body delivery of "def". -/
def sampleLastChunkInvocation : Invocation :=
  { request := sampleRequest 1
    input_brigade := [apr_bucket.data [100, 101, 102], apr_bucket.eos]
    local_status := APR_SUCCESS
    pass_status := APR_SUCCESS }

/-! ## The three branches of `Write` -/

theorem Write_body_eq {σ : Type} (StringToInt64 : String → Bool × Int) (ops : ContextOps σ)
    (context_ : σ) (inv : Invocation) (id : SpdyStreamId) (chunk : Bytes)
    (hbody : inv.request.sent_bodyct ≠ 0)
    (hpool : inv.local_status = APR_SUCCESS)
    (hread : apr_brigade_pflatten inv.input_brigade = (APR_SUCCESS, chunk))
    (hid : GetRequestStreamId StringToInt64 inv.request 0 = (true, id)) :
    Write StringToInt64 ops context_ inv =
      Write.finish inv (Write.is_end_of_stream inv.input_brigade)
        (ops.SendData context_ id chunk (Write.is_end_of_stream inv.input_brigade))
        [ContextCall.SendData id chunk (Write.is_end_of_stream inv.input_brigade)] := by
  simp [Write, hbody, hpool, hread, hid]

theorem Write_headers_eq {σ : Type} (StringToInt64 : String → Bool × Int)
    (ops : ContextOps σ) (context_ : σ) (inv : Invocation) (id : SpdyStreamId)
    (hbody : inv.request.sent_bodyct = 0)
    (hsent : ops.headers_have_been_sent context_ = false)
    (hid : GetRequestStreamId StringToInt64 inv.request 0 = (true, id)) :
    Write StringToInt64 ops context_ inv =
      Write.finish inv (Write.is_end_of_stream inv.input_brigade)
        (ops.SendHeaders context_ id { request := inv.request }
          (Write.is_end_of_stream inv.input_brigade))
        [ContextCall.SendHeaders id { request := inv.request }
          (Write.is_end_of_stream inv.input_brigade)] := by
  simp [Write, hbody, hsent, hid]

theorem Write_passthrough_eq {σ : Type} (StringToInt64 : String → Bool × Int)
    (ops : ContextOps σ) (context_ : σ) (inv : Invocation)
    (hbody : inv.request.sent_bodyct = 0)
    (hsent : ops.headers_have_been_sent context_ = true) :
    Write StringToInt64 ops context_ inv =
      Write.finish inv (Write.is_end_of_stream inv.input_brigade)
        { ok := true, ctx := context_, written := [] } [] := by
  simp [Write, hbody, hsent]

theorem Write_unresolved_eq {σ : Type} (StringToInt64 : String → Bool × Int)
    (ops : ContextOps σ) (context_ : σ) (inv : Invocation)
    (hid : (GetRequestStreamId StringToInt64 inv.request 0).1 = false)
    (hneed : inv.request.sent_bodyct ≠ 0 ∨ ops.headers_have_been_sent context_ = false) :
    ∃ status, Write StringToInt64 ops context_ inv = Write.fail context_ status ∧
      (status = APR_EGENERAL ∨
        (inv.request.sent_bodyct ≠ 0 ∧ status ≠ APR_SUCCESS ∧
          (status = inv.local_status ∨
            status = (apr_brigade_pflatten inv.input_brigade).1))) ∧
      ((inv.request.sent_bodyct = 0 ∨ (inv.local_status = APR_SUCCESS ∧
          (apr_brigade_pflatten inv.input_brigade).1 = APR_SUCCESS)) →
        status = APR_EGENERAL) := by
  by_cases hbody : inv.request.sent_bodyct = 0
  · have hsent : ops.headers_have_been_sent context_ = false := by
      rcases hneed with h | h
      · exact absurd hbody h
      · exact h
    exact ⟨APR_EGENERAL, by simp [Write, hbody, hsent, hid], Or.inl rfl, fun _ => rfl⟩
  · by_cases hpool : inv.local_status = APR_SUCCESS
    · by_cases hread : (apr_brigade_pflatten inv.input_brigade).1 = APR_SUCCESS
      · exact ⟨APR_EGENERAL, by simp [Write, hbody, hpool, hread, hid], Or.inl rfl,
          fun _ => rfl⟩
      · refine ⟨(apr_brigade_pflatten inv.input_brigade).1,
          by simp [Write, hbody, hpool, hread], Or.inr ⟨hbody, hread, Or.inr rfl⟩, ?_⟩
        rintro (h | ⟨_, h⟩)
        · exact absurd h hbody
        · exact absurd h hread
    · refine ⟨inv.local_status, by simp [Write, hbody, hpool],
        Or.inr ⟨hbody, hpool, Or.inl rfl⟩, ?_⟩
      rintro (h | ⟨h, _⟩)
      · exact absurd h hbody
      · exact absurd h hpool

theorem Write_pool_failure_eq {σ : Type} (StringToInt64 : String → Bool × Int)
    (ops : ContextOps σ) (context_ : σ) (inv : Invocation)
    (hbody : inv.request.sent_bodyct ≠ 0)
    (hpool : inv.local_status ≠ APR_SUCCESS) :
    Write StringToInt64 ops context_ inv = Write.fail context_ inv.local_status := by
  simp [Write, hbody, hpool]

theorem Write_read_failure_eq {σ : Type} (StringToInt64 : String → Bool × Int)
    (ops : ContextOps σ) (context_ : σ) (inv : Invocation)
    (hbody : inv.request.sent_bodyct ≠ 0)
    (hpool : inv.local_status = APR_SUCCESS)
    (hread : (apr_brigade_pflatten inv.input_brigade).1 ≠ APR_SUCCESS) :
    Write StringToInt64 ops context_ inv =
      Write.fail context_ (apr_brigade_pflatten inv.input_brigade).1 := by
  simp [Write, hbody, hpool, hread]

/-- Every invocation ends in one of four ways: an early error return, or the common
tail after a data send, after a header send, or after no send at all. -/
theorem Write_shape {σ : Type} (StringToInt64 : String → Bool × Int) (ops : ContextOps σ)
    (context_ : σ) (inv : Invocation) :
    (∃ status, Write StringToInt64 ops context_ inv = Write.fail context_ status) ∨
    (∃ id chunk, inv.request.sent_bodyct ≠ 0 ∧
      Write StringToInt64 ops context_ inv =
        Write.finish inv (Write.is_end_of_stream inv.input_brigade)
          (ops.SendData context_ id chunk (Write.is_end_of_stream inv.input_brigade))
          [ContextCall.SendData id chunk (Write.is_end_of_stream inv.input_brigade)]) ∨
    (∃ id, inv.request.sent_bodyct = 0 ∧ ops.headers_have_been_sent context_ = false ∧
      Write StringToInt64 ops context_ inv =
        Write.finish inv (Write.is_end_of_stream inv.input_brigade)
          (ops.SendHeaders context_ id { request := inv.request }
            (Write.is_end_of_stream inv.input_brigade))
          [ContextCall.SendHeaders id { request := inv.request }
            (Write.is_end_of_stream inv.input_brigade)]) ∨
    (inv.request.sent_bodyct = 0 ∧ ops.headers_have_been_sent context_ = true ∧
      Write StringToInt64 ops context_ inv =
        Write.finish inv (Write.is_end_of_stream inv.input_brigade)
          { ok := true, ctx := context_, written := [] } []) := by
  rcases Bool.eq_false_or_eq_true (GetRequestStreamId StringToInt64 inv.request 0).1 with
    hres | hres
  · have hid : GetRequestStreamId StringToInt64 inv.request 0 =
        (true, (GetRequestStreamId StringToInt64 inv.request 0).2) := by
      rw [← hres]
    by_cases hbody : inv.request.sent_bodyct = 0
    · rcases Bool.eq_false_or_eq_true (ops.headers_have_been_sent context_) with
        hsent | hsent
      · exact Or.inr (Or.inr (Or.inr
          ⟨hbody, hsent, Write_passthrough_eq _ _ _ _ hbody hsent⟩))
      · exact Or.inr (Or.inr (Or.inl ⟨_, hbody, hsent,
          Write_headers_eq _ _ _ _ _ hbody hsent hid⟩))
    · by_cases hpool : inv.local_status = APR_SUCCESS
      · by_cases hread : (apr_brigade_pflatten inv.input_brigade).1 = APR_SUCCESS
        · have hflat : apr_brigade_pflatten inv.input_brigade =
              (APR_SUCCESS, (apr_brigade_pflatten inv.input_brigade).2) := by
            rw [← hread]
          exact Or.inr (Or.inl ⟨_, _, hbody,
            Write_body_eq _ _ _ _ _ _ hbody hpool hflat hid⟩)
        · exact Or.inl ⟨(apr_brigade_pflatten inv.input_brigade).1,
            by simp [Write, hbody, hpool, hread]⟩
      · exact Or.inl ⟨inv.local_status, by simp [Write, hbody, hpool]⟩
  · by_cases hbody : inv.request.sent_bodyct = 0
    · rcases Bool.eq_false_or_eq_true (ops.headers_have_been_sent context_) with
        hsent | hsent
      · exact Or.inr (Or.inr (Or.inr
          ⟨hbody, hsent, Write_passthrough_eq _ _ _ _ hbody hsent⟩))
      · obtain ⟨st, hst, _⟩ := Write_unresolved_eq StringToInt64 ops context_ inv hres
          (Or.inr hsent)
        exact Or.inl ⟨st, hst⟩
    · obtain ⟨st, hst, _⟩ := Write_unresolved_eq StringToInt64 ops context_ inv hres
        (Or.inl hbody)
      exact Or.inl ⟨st, hst⟩

/-! ## The common tail and sequences -/

theorem Write_passed_marker {σ : Type} (StringToInt64 : String → Bool × Int)
    (ops : ContextOps σ) (context_ : σ) (inv : Invocation) (out : List OutBucket)
    (hout : (Write StringToInt64 ops context_ inv).passed = some out) :
    (OutBucket.eos ∈ out ↔ Write.is_end_of_stream inv.input_brigade = true) ∧
    out.count OutBucket.eos =
      (if Write.is_end_of_stream inv.input_brigade then 1 else 0) ∧
    (Write.is_end_of_stream inv.input_brigade = true →
      ∃ frames : List SpdyFrame, out = frames.map OutBucket.frame ++ [OutBucket.eos]) := by
  have key : ∀ (sent : SendResult σ) (calls : List ContextCall),
      (Write.finish inv (Write.is_end_of_stream inv.input_brigade) sent calls).passed
        = some out →
      (OutBucket.eos ∈ out ↔ Write.is_end_of_stream inv.input_brigade = true) ∧
      out.count OutBucket.eos =
        (if Write.is_end_of_stream inv.input_brigade then 1 else 0) ∧
      (Write.is_end_of_stream inv.input_brigade = true →
        ∃ frames : List SpdyFrame,
          out = frames.map OutBucket.frame ++ [OutBucket.eos]) := by
    intro sent calls h
    simp only [Write.finish, Option.some.injEq] at h
    subst h
    have hcount : ∀ frames : List SpdyFrame,
        (frames.map OutBucket.frame).count OutBucket.eos = 0 := by
      intro frames
      induction frames with
      | nil => rfl
      | cons f rest ih => simp [List.count_cons, ih]
    have hmem : ∀ frames : List SpdyFrame,
        OutBucket.eos ∉ frames.map OutBucket.frame := by
      intro frames hin
      simp at hin
    cases hflag : Write.is_end_of_stream inv.input_brigade
    · refine ⟨?_, ?_, ?_⟩
      · simp
      · simp [hcount]
      · intro h
        cases h
    · refine ⟨?_, ?_, ?_⟩
      · simp
      · simp [List.count_append, hcount]
      · intro _
        exact ⟨sent.written, by simp⟩
  rcases Write_shape StringToInt64 ops context_ inv with
    ⟨st, h⟩ | ⟨id, chunk, _, h⟩ | ⟨id, _, _, h⟩ | ⟨_, _, h⟩
  · rw [h] at hout
    simp [Write.fail] at hout
  · rw [h] at hout
    exact key _ _ hout
  · rw [h] at hout
    exact key _ _ hout
  · rw [h] at hout
    exact key _ _ hout

theorem Write_emitted_no_marker {σ : Type} (StringToInt64 : String → Bool × Int)
    (ops : ContextOps σ) (context_ : σ) (inv : Invocation)
    (hflag : Write.is_end_of_stream inv.input_brigade = false) :
    (Write StringToInt64 ops context_ inv).emitted.count OutBucket.eos = 0 := by
  cases hp : (Write StringToInt64 ops context_ inv).passed with
  | none => simp [WriteResult.emitted, hp]
  | some out =>
    have h := (Write_passed_marker StringToInt64 ops context_ inv out hp).2.1
    simp only [WriteResult.emitted, hp, Option.getD_some]
    simpa [hflag] using h

theorem WriteAll_append {σ : Type} (StringToInt64 : String → Bool × Int)
    (ops : ContextOps σ) (first second : List Invocation) (context_ : σ) :
    WriteAll StringToInt64 ops context_ (first ++ second) =
      ((WriteAll StringToInt64 ops context_ first).1 ++
          (WriteAll StringToInt64 ops (WriteAll StringToInt64 ops context_ first).2
            second).1,
        (WriteAll StringToInt64 ops (WriteAll StringToInt64 ops context_ first).2
          second).2) := by
  induction first generalizing context_ with
  | nil => simp [WriteAll]
  | cons inv rest ih => simp [WriteAll, ih, List.append_assoc]

theorem WriteAll_no_marker {σ : Type} (StringToInt64 : String → Bool × Int)
    (ops : ContextOps σ) (invs : List Invocation) (context_ : σ)
    (hflags : ∀ inv ∈ invs, Write.is_end_of_stream inv.input_brigade = false) :
    (WriteAll StringToInt64 ops context_ invs).1.count OutBucket.eos = 0 := by
  induction invs generalizing context_ with
  | nil => simp [WriteAll]
  | cons inv rest ih =>
    have h1 := Write_emitted_no_marker StringToInt64 ops context_ inv
      (hflags inv (List.mem_cons_self _ _))
    have h2 := ih (Write StringToInt64 ops context_ inv).ctx
      (fun i hi => hflags i (List.mem_cons_of_mem _ hi))
    simp [WriteAll, List.count_append, h1, h2]

/-! ## The specified context: single invocations -/

theorem Write_header_phase_ignores_data {σ : Type} (StringToInt64 : String → Bool × Int)
    (ops : ContextOps σ) (context_ : σ) (inv : Invocation) (brigade : apr_bucket_brigade)
    (hbody : inv.request.sent_bodyct = 0)
    (hflag : Write.is_end_of_stream brigade = Write.is_end_of_stream inv.input_brigade) :
    Write StringToInt64 ops context_ { inv with input_brigade := brigade } =
      Write StringToInt64 ops context_ inv := by
  simp [Write, hbody, hflag, Write.finish]

theorem spec_step_sent (StringToInt64 : String → Bool × Int) (c : OutputFilterContext)
    (inv : Invocation) (hsent : c.headers_have_been_sent_ = true) :
    (Write StringToInt64 specContext c inv).ctx.headers_have_been_sent_ = true ∧
    (Write StringToInt64 specContext c inv).emitted.countP OutBucket.isHeaders = 0 := by
  rcases Write_shape StringToInt64 specContext c inv with
    ⟨st, h⟩ | ⟨id, chunk, _, h⟩ | ⟨id, _, hs, h⟩ | ⟨_, _, h⟩
  · rw [h]
    exact ⟨hsent, rfl⟩
  · rw [h]
    cases hflag : Write.is_end_of_stream inv.input_brigade <;>
      simp [Write.finish, WriteResult.emitted, specContext, OutputFilterContext.SendData,
        hsent, OutBucket.isHeaders]
  · simp [specContext, OutputFilterContext.headers_have_been_sent, hsent] at hs
  · rw [h]
    cases hflag : Write.is_end_of_stream inv.input_brigade <;>
      simp [Write.finish, WriteResult.emitted, hsent, OutBucket.isHeaders]

theorem spec_step_unsent (StringToInt64 : String → Bool × Int) (c : OutputFilterContext)
    (inv : Invocation) (hsent : c.headers_have_been_sent_ = false) :
    (∀ b ∈ (Write StringToInt64 specContext c inv).emitted, b.isData = false) ∧
    (Write StringToInt64 specContext c inv).emitted.countP OutBucket.isHeaders ≤ 1 ∧
    ((Write StringToInt64 specContext c inv).ctx.headers_have_been_sent_ = true →
      ∃ h ∈ (Write StringToInt64 specContext c inv).emitted, h.isHeaders = true) ∧
    ((Write StringToInt64 specContext c inv).ctx.headers_have_been_sent_ = false →
      (Write StringToInt64 specContext c inv).emitted.countP OutBucket.isHeaders = 0) := by
  rcases Write_shape StringToInt64 specContext c inv with
    ⟨st, h⟩ | ⟨id, chunk, _, h⟩ | ⟨id, _, _, h⟩ | ⟨_, hs, h⟩
  · rw [h]
    simp [Write.fail, WriteResult.emitted, hsent]
  · rw [h]
    cases hflag : Write.is_end_of_stream inv.input_brigade <;>
      simp [Write.finish, WriteResult.emitted, specContext, OutputFilterContext.SendData,
        hsent, OutBucket.isHeaders, OutBucket.isData]
  · rw [h]
    cases hflag : Write.is_end_of_stream inv.input_brigade <;>
      simp [Write.finish, WriteResult.emitted, specContext,
        OutputFilterContext.SendHeaders, OutBucket.isHeaders, OutBucket.isData]
  · simp [specContext, OutputFilterContext.headers_have_been_sent, hsent] at hs

/-! ## The specified context: sequences -/

theorem spec_all_sent (StringToInt64 : String → Bool × Int) (invs : List Invocation)
    (c : OutputFilterContext) (hsent : c.headers_have_been_sent_ = true) :
    (WriteAll StringToInt64 specContext c invs).2.headers_have_been_sent_ = true ∧
    (WriteAll StringToInt64 specContext c invs).1.countP OutBucket.isHeaders = 0 := by
  induction invs generalizing c with
  | nil => exact ⟨hsent, rfl⟩
  | cons inv rest ih =>
    obtain ⟨h1, h2⟩ := spec_step_sent StringToInt64 c inv hsent
    obtain ⟨h3, h4⟩ := ih (Write StringToInt64 specContext c inv).ctx h1
    exact ⟨h3, by simp only [WriteAll, List.countP_append, h2, h4]⟩

theorem spec_all_headers_le_one (StringToInt64 : String → Bool × Int)
    (invs : List Invocation) (c : OutputFilterContext) :
    (WriteAll StringToInt64 specContext c invs).1.countP OutBucket.isHeaders ≤ 1 := by
  induction invs generalizing c with
  | nil => simp [WriteAll]
  | cons inv rest ih =>
    rcases Bool.eq_false_or_eq_true c.headers_have_been_sent_ with hsent | hsent
    · have h := (spec_all_sent StringToInt64 (inv :: rest) c hsent).2
      omega
    · obtain ⟨_, hle, _, hzero⟩ := spec_step_unsent StringToInt64 c inv hsent
      simp only [WriteAll, List.countP_append]
      rcases Bool.eq_false_or_eq_true
        (Write StringToInt64 specContext c inv).ctx.headers_have_been_sent_ with hnext | hnext
      · have h := (spec_all_sent StringToInt64 rest _ hnext).2
        omega
      · have h1 := hzero hnext
        have h2 := ih (Write StringToInt64 specContext c inv).ctx
        omega

theorem is_end_of_stream_iff (brigade : apr_bucket_brigade) :
    Write.is_end_of_stream brigade = true ↔
      ∃ b ∈ brigade, APR_BUCKET_IS_EOS b = true := by
  induction brigade with
  | nil => simp [Write.is_end_of_stream]
  | cons bucket rest ih =>
    cases hb : APR_BUCKET_IS_EOS bucket <;> simp [Write.is_end_of_stream, hb, ih]

theorem scan_loop_eq (brigade : apr_bucket_brigade) :
    ∀ fuel, brigade.length < fuel →
      Write.scan_loop fuel brigade = some (Write.is_end_of_stream brigade) := by
  induction brigade with
  | nil =>
    intro fuel h
    cases fuel with
    | zero => simp at h
    | succ n => rfl
  | cons bucket rest ih =>
    intro fuel h
    cases fuel with
    | zero => simp at h
    | succ n =>
      have hlen : rest.length < n := by simpa using h
      cases hb : APR_BUCKET_IS_EOS bucket <;>
        simp [Write.scan_loop, Write.is_end_of_stream, hb, ih n hlen]

/-- C9: for every brigade the scan at the head of `Write` leaves its loop within
one test per bucket plus one, and the flag it computes is true exactly when some
bucket of the brigade is an end-of-stream bucket, wherever that bucket stands and
whatever follows it; on the empty brigade the flag is false. -/
theorem C9_scan_finds_any_eos_bucket :
    (∀ brigade : apr_bucket_brigade,
      Write.scan_loop (brigade.length + 1) brigade =
        some (Write.is_end_of_stream brigade)) ∧
    (∀ brigade : apr_bucket_brigade,
      Write.is_end_of_stream brigade = true ↔
        ∃ b ∈ brigade, APR_BUCKET_IS_EOS b = true) ∧
    (∀ (before after : apr_bucket_brigade) (b : apr_bucket),
      APR_BUCKET_IS_EOS b = true →
        Write.is_end_of_stream (before ++ b :: after) = true) ∧
    Write.is_end_of_stream [] = false := by
  refine ⟨fun brigade => scan_loop_eq brigade _ (Nat.lt_succ_self _),
    is_end_of_stream_iff, ?_, rfl⟩
  intro before after b hb
  exact (is_end_of_stream_iff _).2 ⟨b, by simp, hb⟩

theorem C9_witness :
    Write.is_end_of_stream
      ([apr_bucket.data [1], apr_bucket.flush] ++ apr_bucket.eos ::
        [apr_bucket.data [2], apr_bucket.unreadable 70014]) = true :=
  C9_scan_finds_any_eos_bucket.2.2.1 [apr_bucket.data [1], apr_bucket.flush]
    [apr_bucket.data [2], apr_bucket.unreadable 70014] apr_bucket.eos rfl

/-! ## Stream-identifier lookup -/

theorem static_cast_coe (n : Int) :
    ((static_cast_SpdyStreamId n : Nat) : Int) = n % 4294967296 := by
  unfold static_cast_SpdyStreamId
  exact Int.toNat_of_nonneg (Int.emod_nonneg n (by decide))

theorem static_cast_lt (n : Int) : static_cast_SpdyStreamId n < 4294967296 := by
  have h : ((static_cast_SpdyStreamId n : Nat) : Int) < 4294967296 := by
    rw [static_cast_coe]
    omega
  exact_mod_cast h

theorem static_cast_eq_iff (n : Int) :
    ((static_cast_SpdyStreamId n : Nat) : Int) = n ↔ 0 ≤ n ∧ n < 4294967296 := by
  rw [static_cast_coe]
  omega

/-- C10: `GetRequestStreamId` succeeds exactly when the `x-spdy-stream-id` request
header is present and `StringToInt64` parses it; on success the identifier it
stores is the parsed 64-bit value `n` reduced modulo `2 ^ 32 = 4294967296` (so
below `2 ^ 32`, and equal to `n` exactly when `0 ≤ n < 2 ^ 32`; no parsed value is rejected for
being negative or too large); on failure the output identifier keeps the value it
had on entry. -/
theorem C10_GetRequestStreamId_wraps_mod_2_pow_32 (StringToInt64 : String → Bool × Int)
    (request : request_rec) (out : SpdyStreamId) :
    ((GetRequestStreamId StringToInt64 request out).1 = true ↔
      ∃ value, apr_table_get request.headers_in "x-spdy-stream-id" = some value ∧
        (StringToInt64 value).1 = true) ∧
    (∀ value n, apr_table_get request.headers_in "x-spdy-stream-id" = some value →
      StringToInt64 value = (true, n) →
        GetRequestStreamId StringToInt64 request out = (true, (n % 4294967296).toNat) ∧
        (GetRequestStreamId StringToInt64 request out).2 < 4294967296 ∧
        ((((GetRequestStreamId StringToInt64 request out).2 : Nat) : Int) = n ↔
          0 ≤ n ∧ n < 4294967296)) ∧
    ((GetRequestStreamId StringToInt64 request out).1 = false →
      (GetRequestStreamId StringToInt64 request out).2 = out) := by
  refine ⟨?_, ?_, ?_⟩
  · unfold GetRequestStreamId
    cases hget : apr_table_get request.headers_in "x-spdy-stream-id" with
    | none => simp
    | some value => cases hp : (StringToInt64 value).1 <;> simp [hp]
  · intro value n hget hparse
    have hres : GetRequestStreamId StringToInt64 request out =
        (true, static_cast_SpdyStreamId n) := by
      simp [GetRequestStreamId, hget, hparse]
    rw [hres]
    refine ⟨rfl, ?_, ?_⟩
    · exact static_cast_lt n
    · exact static_cast_eq_iff n
  · unfold GetRequestStreamId
    cases hget : apr_table_get request.headers_in "x-spdy-stream-id" with
    | none => simp
    | some value => cases hp : (StringToInt64 value).1 <;> simp [hp]

theorem C10_witness :
    GetRequestStreamId decimalStringToInt64 (sampleRequestWithId "-1") 5
      = (true, 4294967295) :=
  (((C10_GetRequestStreamId_wraps_mod_2_pow_32 decimalStringToInt64
    (sampleRequestWithId "-1") 5).2.1 "-1" (-1) (by decide) (by decide)).1).trans
    (by decide)

/-! ## Single invocations, for any context implementation -/

/-- C1 (amended): in a body-phase call (`request->sent_bodyct` non-zero) whose local
pool is created, whose brigade is flattened without error into `chunk_bytes`, and
whose stream identifier resolves to `id`, `Write` makes exactly one member call on
the context, `SendData`, carrying exactly `chunk_bytes` (empty or not), tagged with
`id`, with the end-of-stream flag of the brigade as FIN argument. No `SendHeaders`
call is made and no header populator is built, whatever the context state and
however the context is implemented; what is passed downstream is what that one
call wrote, followed by the termination marker when the flag is set. When the pool
cannot be created the call returns the pool status, and when the pool is created
but the brigade cannot be read it returns the read status; in both cases no member
call is made, nothing is passed downstream and the context is left as it was. -/
theorem C1_body_call_requests_exactly_one_data_frame {σ : Type}
    (StringToInt64 : String → Bool × Int) (ops : ContextOps σ) (context_ : σ)
    (inv : Invocation)
    (hbody : inv.request.sent_bodyct ≠ 0) :
    (∀ (id : SpdyStreamId) (chunk_bytes : Bytes),
      inv.local_status = APR_SUCCESS →
      apr_brigade_pflatten inv.input_brigade = (APR_SUCCESS, chunk_bytes) →
      GetRequestStreamId StringToInt64 inv.request 0 = (true, id) →
        (Write StringToInt64 ops context_ inv).calls =
          [ContextCall.SendData id chunk_bytes
            (Write.is_end_of_stream inv.input_brigade)] ∧
        (Write StringToInt64 ops context_ inv).passed =
          some ((ops.SendData context_ id chunk_bytes
              (Write.is_end_of_stream inv.input_brigade)).written.map OutBucket.frame ++
            (if Write.is_end_of_stream inv.input_brigade then [OutBucket.eos] else [])) ∧
        (Write StringToInt64 ops context_ inv).ctx =
          (ops.SendData context_ id chunk_bytes
            (Write.is_end_of_stream inv.input_brigade)).ctx) ∧
    (inv.local_status ≠ APR_SUCCESS →
      (Write StringToInt64 ops context_ inv).status = inv.local_status ∧
      (Write StringToInt64 ops context_ inv).calls = [] ∧
      (Write StringToInt64 ops context_ inv).passed = none ∧
      (Write StringToInt64 ops context_ inv).ctx = context_) ∧
    (inv.local_status = APR_SUCCESS →
      (apr_brigade_pflatten inv.input_brigade).1 ≠ APR_SUCCESS →
        (Write StringToInt64 ops context_ inv).status =
          (apr_brigade_pflatten inv.input_brigade).1 ∧
        (Write StringToInt64 ops context_ inv).calls = [] ∧
        (Write StringToInt64 ops context_ inv).passed = none ∧
        (Write StringToInt64 ops context_ inv).ctx = context_) := by
  refine ⟨?_, ?_, ?_⟩
  · intro id chunk_bytes hpool hread hid
    rw [Write_body_eq StringToInt64 ops context_ inv id chunk_bytes hbody hpool hread hid]
    exact ⟨rfl, rfl, rfl⟩
  · intro hpool
    rw [Write_pool_failure_eq StringToInt64 ops context_ inv hbody hpool]
    exact ⟨rfl, rfl, rfl, rfl⟩
  · intro hpool hread
    rw [Write_read_failure_eq StringToInt64 ops context_ inv hbody hpool hread]
    exact ⟨rfl, rfl, rfl, rfl⟩

theorem C1_witness :
    (Write decimalStringToInt64 specContext { headers_have_been_sent_ := false }
        sampleBodyInvocation).calls = [ContextCall.SendData 7 [97, 98, 99] true] ∧
    (Write decimalStringToInt64 specContext { headers_have_been_sent_ := false }
        sampleUnreadableInvocation).status = 70014 ∧
    (Write decimalStringToInt64 specContext { headers_have_been_sent_ := false }
        sampleUnreadableInvocation).passed = none :=
  have hfail := (C1_body_call_requests_exactly_one_data_frame decimalStringToInt64
    specContext { headers_have_been_sent_ := false } sampleUnreadableInvocation
    (by decide)).2.2 (by decide) (by decide)
  ⟨((C1_body_call_requests_exactly_one_data_frame decimalStringToInt64 specContext
    { headers_have_been_sent_ := false } sampleBodyInvocation (by decide)).1
    7 [97, 98, 99] (by decide) (by decide) (by decide)).1, hfail.1, hfail.2.2.1⟩

/-- C1 (as stated) fails: a body-phase call on a request resolving to stream 7, with
a readable brigade holding "abc", requests no DATA frame when its local pool
cannot be created; it returns the pool status and passes nothing on. -/
theorem C1_counterexample :
    samplePoolFailureInvocation.request.sent_bodyct ≠ 0 ∧
    GetRequestStreamId decimalStringToInt64 samplePoolFailureInvocation.request 0
      = (true, 7) ∧
    apr_brigade_pflatten samplePoolFailureInvocation.input_brigade
      = (APR_SUCCESS, [97, 98, 99]) ∧
    (Write decimalStringToInt64 specContext { headers_have_been_sent_ := true }
        samplePoolFailureInvocation).calls = [] ∧
    (Write decimalStringToInt64 specContext { headers_have_been_sent_ := true }
        samplePoolFailureInvocation).passed = none ∧
    (Write decimalStringToInt64 specContext { headers_have_been_sent_ := true }
        samplePoolFailureInvocation).status = 12 := by
  decide

/-- C5: a call that is not cut short by an error return passes downstream exactly
the frames its member call wrote followed by the termination marker if and only if
the brigade held an end-of-stream bucket: the marker is in the output iff the flag
is set, it then occurs exactly once and is the last element, in each of the three
branches. Consequently, when only the last call of a sequence has the flag set and
that call is not cut short, the whole sequence emits exactly one marker, and the
calls before the last emit none. -/
theorem C5_termination_marker_iff_end_of_stream {σ : Type}
    (StringToInt64 : String → Bool × Int) (ops : ContextOps σ) :
    (∀ (context_ : σ) (inv : Invocation) (out : List OutBucket),
      (Write StringToInt64 ops context_ inv).passed = some out →
        (OutBucket.eos ∈ out ↔ Write.is_end_of_stream inv.input_brigade = true) ∧
        out.count OutBucket.eos =
          (if Write.is_end_of_stream inv.input_brigade then 1 else 0) ∧
        (Write.is_end_of_stream inv.input_brigade = true →
          ∃ frames : List SpdyFrame, out = frames.map OutBucket.frame ++ [OutBucket.eos])) ∧
    (∀ (context_ : σ) (earlier : List Invocation) (last : Invocation),
      (∀ inv ∈ earlier, Write.is_end_of_stream inv.input_brigade = false) →
      Write.is_end_of_stream last.input_brigade = true →
      (Write StringToInt64 ops (WriteAll StringToInt64 ops context_ earlier).2 last).passed
        ≠ none →
        (WriteAll StringToInt64 ops context_ (earlier ++ [last])).1.count OutBucket.eos = 1 ∧
        (WriteAll StringToInt64 ops context_ earlier).1.count OutBucket.eos = 0 ∧
        (Write StringToInt64 ops (WriteAll StringToInt64 ops context_ earlier).2
          last).emitted.count OutBucket.eos = 1) := by
  refine ⟨?_, ?_⟩
  · intro context_ inv out hout
    exact Write_passed_marker StringToInt64 ops context_ inv out hout
  · intro context_ earlier last hearlier hlast hpass
    have h0 := WriteAll_no_marker StringToInt64 ops earlier context_ hearlier
    have h1 : (Write StringToInt64 ops (WriteAll StringToInt64 ops context_ earlier).2
        last).emitted.count OutBucket.eos = 1 := by
      obtain ⟨out, hout⟩ := Option.ne_none_iff_exists'.1 hpass
      have h := (Write_passed_marker StringToInt64 ops _ last out hout).2.1
      simp only [WriteResult.emitted, hout, Option.getD_some]
      simpa [hlast] using h
    refine ⟨?_, h0, h1⟩
    rw [WriteAll_append, List.count_append, h0]
    simp [WriteAll, h1]

theorem C5_witness :
    (WriteAll decimalStringToInt64 specContext OutputFilterContext.fresh
      ([sampleHeaderInvocation, sampleChunkInvocation] ++
        [sampleLastChunkInvocation])).1.count OutBucket.eos = 1 :=
  ((C5_termination_marker_iff_end_of_stream decimalStringToInt64 specContext).2
    OutputFilterContext.fresh [sampleHeaderInvocation, sampleChunkInvocation]
    sampleLastChunkInvocation (by decide) (by decide) (by decide)).1

/-- C6 (amended): when the stream identifier cannot be resolved, every call that
needs it (body started, or headers not yet sent) fails: it returns a non-success
status, passes nothing downstream (no HEADERS, no DATA, no termination marker),
makes no member call and leaves the context as it was; the status is
`APR_EGENERAL` whenever the call reached the lookup, that is unless a body-phase
call had already failed to create its pool or to read its brigade. A call with the
body not started and headers already sent never looks the identifier up: it passes
its brigade on, with the termination marker when the flag is set. -/
theorem C6_unresolved_stream_id_fails_only_where_looked_up {σ : Type}
    (StringToInt64 : String → Bool × Int) (ops : ContextOps σ) (context_ : σ)
    (inv : Invocation)
    (hid : (GetRequestStreamId StringToInt64 inv.request 0).1 = false) :
    ((inv.request.sent_bodyct ≠ 0 ∨ ops.headers_have_been_sent context_ = false) →
      (Write StringToInt64 ops context_ inv).passed = none ∧
      (Write StringToInt64 ops context_ inv).emitted = [] ∧
      (Write StringToInt64 ops context_ inv).calls = [] ∧
      (Write StringToInt64 ops context_ inv).ctx = context_ ∧
      (Write StringToInt64 ops context_ inv).status ≠ APR_SUCCESS ∧
      ((inv.request.sent_bodyct = 0 ∨ (inv.local_status = APR_SUCCESS ∧
          (apr_brigade_pflatten inv.input_brigade).1 = APR_SUCCESS)) →
        (Write StringToInt64 ops context_ inv).status = APR_EGENERAL)) ∧
    (inv.request.sent_bodyct = 0 → ops.headers_have_been_sent context_ = true →
      (Write StringToInt64 ops context_ inv).status = inv.pass_status ∧
      (Write StringToInt64 ops context_ inv).passed =
        some (if Write.is_end_of_stream inv.input_brigade then [OutBucket.eos] else [])) := by
  refine ⟨?_, ?_⟩
  · intro hneed
    obtain ⟨status, hW, hwhich, hgen⟩ :=
      Write_unresolved_eq StringToInt64 ops context_ inv hid hneed
    rw [hW]
    refine ⟨rfl, rfl, rfl, rfl, ?_, hgen⟩
    rcases hwhich with h | ⟨_, h, _⟩
    · rw [h]
      exact (by decide : APR_EGENERAL ≠ APR_SUCCESS)
    · exact h
  · intro hbody hsent
    rw [Write_passthrough_eq StringToInt64 ops context_ inv hbody hsent]
    exact ⟨rfl, rfl⟩

theorem C6_witness :
    (Write decimalStringToInt64 specContext OutputFilterContext.fresh
        sampleBodyInvocationWithoutId).status = APR_EGENERAL ∧
    (Write decimalStringToInt64 specContext OutputFilterContext.fresh
        sampleBodyInvocationWithoutId).passed = none :=
  have h := (C6_unresolved_stream_id_fails_only_where_looked_up decimalStringToInt64
    specContext OutputFilterContext.fresh sampleBodyInvocationWithoutId (by decide)).1
    (Or.inl (by decide))
  ⟨h.2.2.2.2.2 (Or.inr ⟨by decide, by decide⟩), h.1⟩

/-- C6 (as stated) fails: with headers already sent and the body not started, a call
on a request without the stream-id header does not fail; it returns the status of
`ap_pass_brigade` (success here) and emits the termination marker. -/
theorem C6_counterexample :
    (GetRequestStreamId decimalStringToInt64 sampleEosInvocationWithoutId.request 0).1
      = false ∧
    (Write decimalStringToInt64 specContext { headers_have_been_sent_ := true }
        sampleEosInvocationWithoutId).status = APR_SUCCESS ∧
    (Write decimalStringToInt64 specContext { headers_have_been_sent_ := true }
        sampleEosInvocationWithoutId).passed = some [OutBucket.eos] := by
  decide

/-- C7: a call with the body not started (`sent_bodyct` zero) on a context whose
headers have been sent makes no member call at all (no HEADERS, no DATA, no header
populator), leaves the context untouched, so headers stay sent, and passes
downstream the empty brigade, or the termination marker alone when the brigade
held an end-of-stream bucket. -/
theorem C7_headers_sent_and_no_body_is_a_pass_through {σ : Type}
    (StringToInt64 : String → Bool × Int) (ops : ContextOps σ) (context_ : σ)
    (inv : Invocation)
    (hbody : inv.request.sent_bodyct = 0)
    (hsent : ops.headers_have_been_sent context_ = true) :
    (Write StringToInt64 ops context_ inv).calls = [] ∧
    (Write StringToInt64 ops context_ inv).ctx = context_ ∧
    ops.headers_have_been_sent (Write StringToInt64 ops context_ inv).ctx = true ∧
    (Write StringToInt64 ops context_ inv).passed =
      some (if Write.is_end_of_stream inv.input_brigade then [OutBucket.eos] else []) ∧
    (∀ b ∈ (Write StringToInt64 ops context_ inv).emitted,
      b.isHeaders = false ∧ b.isData = false) := by
  rw [Write_passthrough_eq StringToInt64 ops context_ inv hbody hsent]
  refine ⟨rfl, rfl, hsent, rfl, ?_⟩
  intro b hb
  cases h : Write.is_end_of_stream inv.input_brigade <;>
    simp [WriteResult.emitted, Write.finish, h] at hb
  subst hb
  exact ⟨rfl, rfl⟩

theorem C7_witness :
    (Write decimalStringToInt64 specContext { headers_have_been_sent_ := true }
        sampleEosInvocationWithoutId).passed = some [OutBucket.eos] :=
  (C7_headers_sent_and_no_body_is_a_pass_through decimalStringToInt64 specContext
    { headers_have_been_sent_ := true } sampleEosInvocationWithoutId
    (by decide) (by decide)).2.2.2.1

/-! ## The specified context: frames emitted -/

/-- C2 (amended): in a call with the body not started (`sent_bodyct` zero), headers
not yet sent and the stream identifier resolving to `id`, exactly one member call
is made, `SendHeaders`, and exactly one HEADERS frame tagged with `id` is emitted,
built from the header set of the header source; its FIN flag is set iff the brigade
held an end-of-stream bucket, whether or not the brigade also held data. The frame
comes first, followed by the termination marker when the flag is set, and headers
count as sent afterwards. -/
theorem C2_first_call_emits_one_headers_frame (StringToInt64 : String → Bool × Int)
    (c : OutputFilterContext) (inv : Invocation) (id : SpdyStreamId)
    (hbody : inv.request.sent_bodyct = 0)
    (hsent : c.headers_have_been_sent_ = false)
    (hid : GetRequestStreamId StringToInt64 inv.request 0 = (true, id)) :
    (Write StringToInt64 specContext c inv).calls =
      [ContextCall.SendHeaders id { request := inv.request }
        (Write.is_end_of_stream inv.input_brigade)] ∧
    (Write StringToInt64 specContext c inv).passed =
      some (OutBucket.frame (SpdyFrame.headers id
          (ResponseHeaderPopulator.mk inv.request).Populate
          (Write.is_end_of_stream inv.input_brigade)) ::
        (if Write.is_end_of_stream inv.input_brigade then [OutBucket.eos] else [])) ∧
    (Write StringToInt64 specContext c inv).emitted.countP OutBucket.isHeaders = 1 ∧
    (Write StringToInt64 specContext c inv).ctx.headers_have_been_sent_ = true ∧
    (Write StringToInt64 specContext c inv).status = inv.pass_status := by
  rw [Write_headers_eq StringToInt64 specContext c inv id hbody hsent hid]
  cases hflag : Write.is_end_of_stream inv.input_brigade <;>
    simp [Write.finish, WriteResult.emitted, specContext, OutputFilterContext.SendHeaders,
      OutBucket.isHeaders]

theorem C2_witness :
    (Write decimalStringToInt64 specContext OutputFilterContext.fresh
        sampleHeaderInvocation).passed =
      some [OutBucket.frame (SpdyFrame.headers 7
        [("status", "200 OK"), ("content-type", "text/plain")] false)] :=
  (C2_first_call_emits_one_headers_frame decimalStringToInt64 OutputFilterContext.fresh
    sampleHeaderInvocation 7 (by decide) (by decide) (by decide)).2.1

/-- C2 (as stated) fails: a first call whose brigade holds one byte of data and the
end-of-stream bucket has a non-empty chunk, yet its HEADERS frame carries FIN. -/
theorem C2_counterexample :
    sampleHeaderInvocationWithData.request.sent_bodyct = 0 ∧
    apr_brigade_pflatten sampleHeaderInvocationWithData.input_brigade
      = (APR_SUCCESS, [120]) ∧
    Write.is_end_of_stream sampleHeaderInvocationWithData.input_brigade = true ∧
    (Write decimalStringToInt64 specContext OutputFilterContext.fresh
        sampleHeaderInvocationWithData).passed =
      some [OutBucket.frame (SpdyFrame.headers 7
        [("status", "200 OK"), ("content-type", "text/plain")] true), OutBucket.eos] := by
  decide

/-- C3: over any sequence of calls on a fresh instance (whatever the body flags, the
brigades, the pool and pass statuses and the stream-id outcomes) the concatenated
output holds at most one HEADERS frame. The flag `headers_sent` never goes back:
a call entered with it set leaves it set, and once some initial part of the
sequence has left it set, it is set after every longer part, and no HEADERS frame
is emitted by the calls that follow. -/
theorem C3_headers_frame_at_most_once (StringToInt64 : String → Bool × Int) :
    (∀ invs : List Invocation,
      (WriteAll StringToInt64 specContext OutputFilterContext.fresh invs).1.countP
        OutBucket.isHeaders ≤ 1) ∧
    (∀ (c : OutputFilterContext) (inv : Invocation),
      c.headers_have_been_sent_ = true →
        (Write StringToInt64 specContext c inv).ctx.headers_have_been_sent_ = true) ∧
    (∀ earlier later : List Invocation,
      (WriteAll StringToInt64 specContext OutputFilterContext.fresh
          earlier).2.headers_have_been_sent_ = true →
        (WriteAll StringToInt64 specContext OutputFilterContext.fresh
          (earlier ++ later)).2.headers_have_been_sent_ = true ∧
        (WriteAll StringToInt64 specContext
          (WriteAll StringToInt64 specContext OutputFilterContext.fresh earlier).2
          later).1.countP OutBucket.isHeaders = 0) := by
  refine ⟨fun invs => spec_all_headers_le_one StringToInt64 invs _,
    fun c inv h => (spec_step_sent StringToInt64 c inv h).1, ?_⟩
  intro earlier later h
  rw [WriteAll_append]
  exact spec_all_sent StringToInt64 later _ h

theorem C3_witness :
    (WriteAll decimalStringToInt64 specContext OutputFilterContext.fresh
        ([sampleHeaderInvocation] ++ [sampleHeaderInvocationWithData,
          sampleChunkInvocation])).2.headers_have_been_sent_ = true :=
  ((C3_headers_frame_at_most_once decimalStringToInt64).2.2 [sampleHeaderInvocation]
    [sampleHeaderInvocationWithData, sampleChunkInvocation] (by decide)).1

/-- C8: on a fresh instance, a first call with the body not started and no
end-of-stream bucket, then a body call whose chunk reads as "abc" without
end-of-stream bucket, then a body call whose chunk reads as "def" with one, all on
a request resolving to `id`, emit in total exactly HEADERS (FIN clear), DATA "abc"
(FIN clear), DATA "def" (FIN set), termination marker, in this order. -/
theorem C8_headers_then_two_chunks (StringToInt64 : String → Bool × Int)
    (first second third : Invocation) (id : SpdyStreamId)
    (h1body : first.request.sent_bodyct = 0)
    (h1flag : Write.is_end_of_stream first.input_brigade = false)
    (h1id : GetRequestStreamId StringToInt64 first.request 0 = (true, id))
    (h2body : second.request.sent_bodyct ≠ 0)
    (h2pool : second.local_status = APR_SUCCESS)
    (h2read : apr_brigade_pflatten second.input_brigade = (APR_SUCCESS, [97, 98, 99]))
    (h2flag : Write.is_end_of_stream second.input_brigade = false)
    (h2id : GetRequestStreamId StringToInt64 second.request 0 = (true, id))
    (h3body : third.request.sent_bodyct ≠ 0)
    (h3pool : third.local_status = APR_SUCCESS)
    (h3read : apr_brigade_pflatten third.input_brigade = (APR_SUCCESS, [100, 101, 102]))
    (h3flag : Write.is_end_of_stream third.input_brigade = true)
    (h3id : GetRequestStreamId StringToInt64 third.request 0 = (true, id)) :
    (WriteAll StringToInt64 specContext OutputFilterContext.fresh
        [first, second, third]).1 =
      [OutBucket.frame (SpdyFrame.headers id
          (ResponseHeaderPopulator.mk first.request).Populate false),
        OutBucket.frame (SpdyFrame.data id [97, 98, 99] false),
        OutBucket.frame (SpdyFrame.data id [100, 101, 102] true),
        OutBucket.eos] := by
  have c1 : (Write StringToInt64 specContext OutputFilterContext.fresh first).ctx =
      { headers_have_been_sent_ := true } := by
    rw [Write_headers_eq StringToInt64 specContext OutputFilterContext.fresh first id
      h1body rfl h1id]
    rfl
  have o1 : (Write StringToInt64 specContext OutputFilterContext.fresh first).emitted =
      [OutBucket.frame (SpdyFrame.headers id
        (ResponseHeaderPopulator.mk first.request).Populate false)] := by
    rw [Write_headers_eq StringToInt64 specContext OutputFilterContext.fresh first id
      h1body rfl h1id, h1flag]
    rfl
  have c2 : (Write StringToInt64 specContext { headers_have_been_sent_ := true }
      second).ctx = { headers_have_been_sent_ := true } := by
    rw [Write_body_eq StringToInt64 specContext _ second id [97, 98, 99] h2body h2pool
      h2read h2id]
    rfl
  have o2 : (Write StringToInt64 specContext { headers_have_been_sent_ := true }
      second).emitted = [OutBucket.frame (SpdyFrame.data id [97, 98, 99] false)] := by
    rw [Write_body_eq StringToInt64 specContext _ second id [97, 98, 99] h2body h2pool
      h2read h2id, h2flag]
    rfl
  have o3 : (Write StringToInt64 specContext { headers_have_been_sent_ := true }
      third).emitted =
      [OutBucket.frame (SpdyFrame.data id [100, 101, 102] true), OutBucket.eos] := by
    rw [Write_body_eq StringToInt64 specContext _ third id [100, 101, 102] h3body h3pool
      h3read h3id, h3flag]
    rfl
  simp only [WriteAll, c1, o1, c2, o2, o3, List.append_nil, List.cons_append,
    List.nil_append]

theorem C8_witness :
    (WriteAll decimalStringToInt64 specContext OutputFilterContext.fresh
        [sampleHeaderInvocation, sampleChunkInvocation, sampleLastChunkInvocation]).1 =
      [OutBucket.frame (SpdyFrame.headers 7
          [("status", "200 OK"), ("content-type", "text/plain")] false),
        OutBucket.frame (SpdyFrame.data 7 [97, 98, 99] false),
        OutBucket.frame (SpdyFrame.data 7 [100, 101, 102] true),
        OutBucket.eos] :=
  C8_headers_then_two_chunks decimalStringToInt64 sampleHeaderInvocation
    sampleChunkInvocation sampleLastChunkInvocation 7
    (by decide) (by decide) (by decide) (by decide) (by decide) (by decide) (by decide)
    (by decide) (by decide) (by decide) (by decide) (by decide) (by decide)

end ModSpdy
